import Mathlib

/-!
Verification of the student–teacher workflow sample
(`samples/workflows/simple_workflow.py`) against its specification.

The sample wires two agent-backed executors into a two-node cyclic workflow
graph (teacher → student → teacher).  The handlers themselves are small pure
computations around a single asynchronous agent call, so we embed them as
Lean functions parameterised by an agent oracle mapping the conversation it
is run on to the list of response messages (`response.messages` in the
source).  The `print` calls, the `asyncio.sleep` delays and the telemetry
setup are I/O only and have no effect on the values the handlers compute,
send or emit, so they do not appear in the embedding.

The workflow engine itself (`WorkflowBuilder`, the run controller) is
supplied by the external `agent_framework` package and is not part of this
repository; where a claim depends on it, the relevant contract is modelled
from the specification text and marked as such.
-/

/-- Chat roles as used by the sample (`Role.USER`) and the spec's ChatTurn
data model (system, user, assistant). -/
inductive Role where
  | system
  | user
  | assistant
  deriving DecidableEq, Repr

/-- A chat turn, `ChatMessage(role, text=...)` in the source. -/
structure ChatMessage where
  role : Role
  text : String
  deriving DecidableEq, Repr

/-- Workflow events a handler can emit via `ctx.add_event`.  The sample only
ever emits `WorkflowCompletedEvent()`. -/
inductive WorkflowEvent where
  | completed
  deriving DecidableEq, Repr

/-- The agent oracle: `self.agent.run(messages)` returns a response whose
`messages` field is the list of new turns the handlers append.  We abstract
the whole asynchronous call as a function from the conversation passed to
`run` to that response message list. -/
abbrev Agent := List ChatMessage → List ChatMessage

/-- What one handler invocation does through its `WorkflowContext`:
the conversations passed to `ctx.send_message` and the events passed to
`ctx.add_event`, each in emission order.  The sample never calls
`yield_output`, so no third field is needed. -/
structure HandlerResult where
  sent : List (List ChatMessage)
  events : List WorkflowEvent
  deriving DecidableEq, Repr

/-- `StudentAgentExecutor.handle_teacher_question`: run the agent on the
incoming conversation, extend the conversation with the response messages
(`messages.extend(response.messages)`), and send it. -/
def StudentAgentExecutor.handle_teacher_question (agent : Agent)
    (messages : List ChatMessage) : HandlerResult :=
  let response := agent messages
  { sent := [messages ++ response], events := [] }

/-- The teacher executor's mutable state: the `turn_count` attribute. -/
structure TeacherState where
  turn_count : Nat
  deriving DecidableEq, Repr

/-- `TeacherAgentExecutor.__init__` passes `turn_count=0`. -/
def TeacherAgentExecutor.init : TeacherState := ⟨0⟩

/-- `TeacherAgentExecutor.handle_start_message`: wrap the raw start string in
a user-role `ChatMessage`, run the agent on that single-turn conversation,
extend it with the response messages and send it.  `turn_count` is not
touched. -/
def TeacherAgentExecutor.handle_start_message (agent : Agent)
    (st : TeacherState) (message : String) : TeacherState × HandlerResult :=
  let chat_message : ChatMessage := ⟨Role.user, message⟩
  let messages : List ChatMessage := [chat_message]
  let response := agent messages
  (st, { sent := [messages ++ response], events := [] })

/-- `TeacherAgentExecutor.handle_student_answer`: increment `turn_count`;
if it has reached 5, add a `WorkflowCompletedEvent` and return; otherwise run
the agent on the conversation, extend it with the response messages and send
it. -/
def TeacherAgentExecutor.handle_student_answer (agent : Agent)
    (st : TeacherState) (messages : List ChatMessage) :
    TeacherState × HandlerResult :=
  let st' : TeacherState := ⟨st.turn_count + 1⟩
  if 5 ≤ st'.turn_count then
    (st', { sent := [], events := [WorkflowEvent.completed] })
  else
    let response := agent messages
    (st', { sent := [messages ++ response], events := [] })

/-- Outcome of a terminated run of the sample's two-node cycle:
`rounds` counts the invocations of `handle_student_answer` (one per
teacher→student→teacher round trip), `conv` is the conversation held when
the run terminated, `events` the events emitted by the terminating
invocation. -/
structure RunResult where
  rounds : Nat
  conv : List ChatMessage
  events : List WorkflowEvent
  deriving DecidableEq, Repr

/-- The cyclic part of the run, following the spec's run-controller
algorithm on the sample's two-node graph: deliver the pending conversation
to the student, deliver what the student sends to the teacher, and stop as
soon as a completion event is emitted.  Fuel bounds the recursion; `none`
means the fuel ran out before the run terminated. -/
def runLoop (ta sa : Agent) :
    Nat → TeacherState → List ChatMessage → Option RunResult
  | 0, _, _ => none
  | fuel + 1, st, conv =>
    match (StudentAgentExecutor.handle_teacher_question sa conv).sent with
    | [conv1] =>
      let p := TeacherAgentExecutor.handle_student_answer ta st conv1
      if WorkflowEvent.completed ∈ p.2.events then
        some ⟨1, conv1, p.2.events⟩
      else
        match p.2.sent with
        | [conv2] =>
          (runLoop ta sa fuel p.1 conv2).map fun res =>
            ⟨res.rounds + 1, res.conv, res.events⟩
        | _ => none
    | _ => none

/-- A whole run of the sample workflow from the raw start string: the start
executor (the teacher) handles the start message, and the conversation it
sends enters the teacher→student→teacher cycle. -/
def runWorkflow (ta sa : Agent) (start : String) (fuel : Nat) :
    Option RunResult :=
  match (TeacherAgentExecutor.handle_start_message ta
      TeacherAgentExecutor.init start).2.sent with
  | [conv0] => runLoop ta sa fuel TeacherAgentExecutor.init conv0
  | _ => none

/-- A concrete teacher agent always answering with one assistant turn. -/
def constQuestion : Agent := fun _ => [⟨Role.assistant, "q"⟩]

/-- A concrete student agent always answering with one assistant turn. -/
def constAnswer : Agent := fun _ => [⟨Role.assistant, "a"⟩]

/-- A second concrete teacher agent, extensionally equal to `constQuestion`
on every input but a distinct definition. -/
def constQuestion2 : Agent := fun _ => [⟨Role.assistant, "q"⟩]

lemma handle_student_answer_state (a : Agent) (st : TeacherState)
    (conv : List ChatMessage) :
    (TeacherAgentExecutor.handle_student_answer a st conv).1 =
      ⟨st.turn_count + 1⟩ := by
  by_cases h : 5 ≤ st.turn_count + 1 <;>
    simp [TeacherAgentExecutor.handle_student_answer, h]

lemma runLoop_succ (ta sa : Agent) (fuel k : Nat)
    (conv : List ChatMessage) :
    runLoop ta sa (fuel + 1) ⟨k⟩ conv =
      if 5 ≤ k + 1 then
        some ⟨1, conv ++ sa conv, [WorkflowEvent.completed]⟩
      else
        (runLoop ta sa fuel ⟨k + 1⟩
            ((conv ++ sa conv) ++ ta (conv ++ sa conv))).map fun res =>
          ⟨res.rounds + 1, res.conv, res.events⟩ := by
  by_cases h : 5 ≤ k + 1 <;>
    simp [runLoop, StudentAgentExecutor.handle_teacher_question,
      TeacherAgentExecutor.handle_student_answer, h]

lemma runLoop_rounds (ta sa : Agent) :
    ∀ (fuel k : Nat) (conv : List ChatMessage), k < 5 → 5 - k ≤ fuel →
      (runLoop ta sa fuel ⟨k⟩ conv).map (fun r => r.rounds) = some (5 - k) ∧
      (runLoop ta sa fuel ⟨k⟩ conv).map (fun r => r.events) =
        some [WorkflowEvent.completed] := by
  intro fuel
  induction fuel with
  | zero => intro k conv hk hf; omega
  | succ fuel ih =>
    intro k conv hk hf
    rw [runLoop_succ]
    by_cases h5 : 5 ≤ k + 1
    · have hk4 : k = 4 := by omega
      subst hk4
      rw [if_pos h5]
      exact ⟨rfl, rfl⟩
    · obtain ⟨ih1, ih2⟩ := ih (k + 1)
        ((conv ++ sa conv) ++ ta (conv ++ sa conv)) (by omega) (by omega)
      rw [if_neg h5]
      constructor
      · rw [Option.map_map]
        have he : ((fun r : RunResult => r.rounds) ∘ fun res : RunResult =>
            (⟨res.rounds + 1, res.conv, res.events⟩ : RunResult)) =
            fun r : RunResult => r.rounds + 1 := rfl
        rw [he]
        have hm : (runLoop ta sa fuel ⟨k + 1⟩
            ((conv ++ sa conv) ++ ta (conv ++ sa conv))).map
              (fun r : RunResult => r.rounds + 1) =
            ((runLoop ta sa fuel ⟨k + 1⟩
              ((conv ++ sa conv) ++ ta (conv ++ sa conv))).map
                (fun r : RunResult => r.rounds)).map (fun n => n + 1) := by
          rw [Option.map_map]; rfl
        rw [hm, ih1]
        show some (5 - (k + 1) + 1) = some (5 - k)
        congr 1
        omega
      · rw [Option.map_map]
        have he : ((fun r : RunResult => r.events) ∘ fun res : RunResult =>
            (⟨res.rounds + 1, res.conv, res.events⟩ : RunResult)) =
            fun r : RunResult => r.events := rfl
        rw [he, ih2]

lemma runLoop_conv_length (ta sa : Agent)
    (hta : ∀ c, (ta c).length = 1) (hsa : ∀ c, (sa c).length = 1) :
    ∀ (fuel k : Nat) (conv : List ChatMessage), k < 5 → 5 - k ≤ fuel →
      (runLoop ta sa fuel ⟨k⟩ conv).map (fun r => r.conv.length) =
        some (conv.length + (2 * (5 - k) - 1)) := by
  intro fuel
  induction fuel with
  | zero => intro k conv hk hf; omega
  | succ fuel ih =>
    intro k conv hk hf
    rw [runLoop_succ]
    by_cases h5 : 5 ≤ k + 1
    · have hk4 : k = 4 := by omega
      subst hk4
      rw [if_pos h5]
      show some ((conv ++ sa conv).length) = some (conv.length + (2 * (5 - 4) - 1))
      rw [List.length_append, hsa]
    · have ih1 := ih (k + 1)
        ((conv ++ sa conv) ++ ta (conv ++ sa conv)) (by omega) (by omega)
      rw [if_neg h5, Option.map_map]
      have he : ((fun r : RunResult => r.conv.length) ∘ fun res : RunResult =>
          (⟨res.rounds + 1, res.conv, res.events⟩ : RunResult)) =
          fun r : RunResult => r.conv.length := rfl
      rw [he, ih1]
      simp only [Option.some.injEq, List.length_append, hta, hsa]
      omega

/-- A student answer whose latest turn contains the sentinel substring
"completed" in upper case. -/
def sentinelAnswer : List ChatMessage :=
  [⟨Role.assistant, "The quiz is COMPLETED"⟩]

/-- Modelled from the spec: the workflow builder and its build-time
validation live in the external `agent_framework` package, not in this
repository.  Per §4.2, `add_edge` registers a directed edge,
`set_start_executor` designates exactly one entry node, and `build` fails
with a ConfigurationError when no start node is set (or the start node is
not part of any registered edge unless it is the sole node). -/
structure WorkflowBuilder where
  edges : List (String × String)
  startExecutor : Option String
  deriving DecidableEq, Repr

/-- A fresh builder: `WorkflowBuilder()` with no edges and no start node. -/
def WorkflowBuilder.empty : WorkflowBuilder := ⟨[], none⟩

/-- Modelled from the spec: `add_edge(source, target)` registers a directed
edge. -/
def WorkflowBuilder.add_edge (b : WorkflowBuilder) (src tgt : String) :
    WorkflowBuilder :=
  ⟨b.edges ++ [(src, tgt)], b.startExecutor⟩

/-- Modelled from the spec: `set_start_executor(node)` designates the entry
node. -/
def WorkflowBuilder.set_start_executor (b : WorkflowBuilder) (n : String) :
    WorkflowBuilder :=
  ⟨b.edges, some n⟩

/-- Modelled from the spec: build-time configuration errors (§7). -/
inductive ConfigurationError where
  | missingStart
  | startNotInGraph
  deriving DecidableEq, Repr

/-- An immutable, runnable graph as returned by a successful `build()`. -/
structure Workflow where
  edges : List (String × String)
  start : String
  deriving DecidableEq, Repr

/-- The node identities registered through edges. -/
def WorkflowBuilder.nodes (b : WorkflowBuilder) : List String :=
  b.edges.map Prod.fst ++ b.edges.map Prod.snd

/-- Modelled from the spec: `build()` validates the graph and fails with a
ConfigurationError when no start executor has been designated, or when the
start node is not part of any registered edge (unless it is the sole
node, i.e. there are no edges at all). -/
def WorkflowBuilder.build (b : WorkflowBuilder) :
    Except ConfigurationError Workflow :=
  match b.startExecutor with
  | none => Except.error ConfigurationError.missingStart
  | some s =>
    if b.edges.isEmpty ∨ s ∈ b.nodes then Except.ok ⟨b.edges, s⟩
    else Except.error ConfigurationError.startNotInGraph

/-- The builder chain of the sample's `main`: teacher→student,
student→teacher, start at the teacher, then build. -/
def sampleWorkflowBuild : Except ConfigurationError Workflow :=
  (((WorkflowBuilder.empty.add_edge "teacher" "student").add_edge
      "student" "teacher").set_start_executor "teacher").build

/-- Claim C1: with the turn limit of 5 hard-coded in
`handle_student_answer`, a run of the two-node cycle terminates after
exactly 5 round trips — `handle_student_answer` is invoked exactly 5 times
(so exactly 5 student answers are processed, not 4 or 6), and the run ends
with the completion event emitted on the invocation where the counter
reaches 5 — for every teacher agent, student agent and start string, given
enough fuel. -/
theorem turn_limit_exactly_five_round_trips (ta sa : Agent) (s : String)
    (fuel : Nat) (hfuel : 5 ≤ fuel) :
    (runWorkflow ta sa s fuel).map (fun r => r.rounds) = some 5 ∧
    (runWorkflow ta sa s fuel).map (fun r => r.events) =
      some [WorkflowEvent.completed] := by
  have h := runLoop_rounds ta sa fuel 0
    ([⟨Role.user, s⟩] ++ ta [⟨Role.user, s⟩]) (by omega) (by omega)
  simpa [runWorkflow, TeacherAgentExecutor.handle_start_message,
    TeacherAgentExecutor.init] using h

/-- Witness for C1 at concrete agents and the sample's start string. -/
theorem turn_limit_exactly_five_round_trips_witness :
    (runWorkflow constQuestion constAnswer "Start the quiz session." 5).map
        (fun r => r.rounds) = some 5 ∧
    (runWorkflow constQuestion constAnswer "Start the quiz session." 5).map
        (fun r => r.events) = some [WorkflowEvent.completed] :=
  turn_limit_exactly_five_round_trips constQuestion constAnswer
    "Start the quiz session." 5 (by decide)

/-- Claim C2, counterexample: in the concrete scenario — start message
"Start the quiz session.", each agent call returning exactly one assistant
turn — the final conversation has 11 turns (1 initial + 5 questions + 5
answers), not 10 as the claim states. -/
theorem quiz_final_conversation_not_ten :
    (runWorkflow constQuestion constAnswer "Start the quiz session." 5).map
        (fun r => r.conv.length) = some 11 ∧
    ¬ (runWorkflow constQuestion constAnswer "Start the quiz session." 5).map
        (fun r => r.conv.length) = some 10 := by
  exact ⟨rfl, by decide⟩

/-- Claim C2 as amended: when the start message is fed to the teacher node
and every agent call returns exactly one message, the run ends with exactly
one completion event and a final conversation of exactly 11 turns — the 5
question/answer pairs plus the single original initial message. -/
theorem quiz_run_one_completion_eleven_turns (ta sa : Agent) (s : String)
    (hta : ∀ c, (ta c).length = 1) (hsa : ∀ c, (sa c).length = 1) :
    (runWorkflow ta sa s 5).map (fun r => r.events) =
      some [WorkflowEvent.completed] ∧
    (runWorkflow ta sa s 5).map (fun r => r.conv.length) = some 11 := by
  constructor
  · have h := (runLoop_rounds ta sa 5 0
      ([⟨Role.user, s⟩] ++ ta [⟨Role.user, s⟩]) (by omega) (by omega)).2
    simpa [runWorkflow, TeacherAgentExecutor.handle_start_message,
      TeacherAgentExecutor.init] using h
  · have h := runLoop_conv_length ta sa hta hsa 5 0
      ([⟨Role.user, s⟩] ++ ta [⟨Role.user, s⟩]) (by omega) (by omega)
    have hlen : ([⟨Role.user, s⟩] ++ ta [⟨Role.user, s⟩] :
        List ChatMessage).length = 2 := by
      simp [hta]
    rw [hlen] at h
    simpa [runWorkflow, TeacherAgentExecutor.handle_start_message,
      TeacherAgentExecutor.init] using h

/-- Witness for the amended C2 at concrete single-message agents. -/
theorem quiz_run_one_completion_eleven_turns_witness :
    (runWorkflow constQuestion constAnswer "Start the quiz session." 5).map
        (fun r => r.events) = some [WorkflowEvent.completed] ∧
    (runWorkflow constQuestion constAnswer "Start the quiz session." 5).map
        (fun r => r.conv.length) = some 11 :=
  quiz_run_one_completion_eleven_turns constQuestion constAnswer
    "Start the quiz session." (fun _ => rfl) (fun _ => rfl)

/-- Claim C3: the class docstring of `TeacherAgentExecutor` promises
termination "when a completion token is observed", but
`handle_student_answer` never inspects the incoming content: on a
conversation whose latest turn contains the sentinel substring "completed"
(upper case here) with the counter still at 0, the handler emits no event
and forwards another message — re-invoking the agent and continuing the
loop instead of terminating. -/
theorem sentinel_token_not_inspected :
    (TeacherAgentExecutor.handle_student_answer constQuestion ⟨0⟩
        sentinelAnswer).2.events = [] ∧
    (TeacherAgentExecutor.handle_student_answer constQuestion ⟨0⟩
        sentinelAnswer).2.sent =
      [sentinelAnswer ++ [⟨Role.assistant, "q"⟩]] :=
  ⟨rfl, rfl⟩

/-- Claim C4: on every invocation of `handle_student_answer` where the
incremented counter reaches the limit, the handler emits exactly one
completion event and sends nothing; the result does not depend on the agent
(the agent is not called); and the run loop stops at that invocation, so no
further message delivery occurs after the completion event. -/
theorem completion_quiescence (a b sa : Agent) (n : Nat)
    (conv : List ChatMessage) (h : 5 ≤ n + 1) :
    TeacherAgentExecutor.handle_student_answer a ⟨n⟩ conv =
      (⟨n + 1⟩, ⟨[], [WorkflowEvent.completed]⟩) ∧
    TeacherAgentExecutor.handle_student_answer a ⟨n⟩ conv =
      TeacherAgentExecutor.handle_student_answer b ⟨n⟩ conv ∧
    ∀ fuel : Nat, runLoop a sa (fuel + 1) ⟨n⟩ conv =
      some ⟨1, conv ++ sa conv, [WorkflowEvent.completed]⟩ := by
  refine ⟨?_, ?_, fun fuel => ?_⟩
  · simp [TeacherAgentExecutor.handle_student_answer, h]
  · simp [TeacherAgentExecutor.handle_student_answer, h]
  · rw [runLoop_succ, if_pos h]

/-- Witness for C4 at counter value 4 (the terminal invocation). -/
theorem completion_quiescence_witness :
    TeacherAgentExecutor.handle_student_answer constQuestion ⟨4⟩
        sentinelAnswer =
      (⟨5⟩, ⟨[], [WorkflowEvent.completed]⟩) :=
  (completion_quiescence constQuestion constAnswer constAnswer 4
    sentinelAnswer (by decide)).1

/-- Claim C5: the teacher's `turn_count` starts at 0 at construction, is
incremented by exactly 1 on each invocation of `handle_student_answer`, and
is left unchanged by `handle_start_message` (the student executor holds no
turn counter at all). -/
theorem turn_counter_frame :
    TeacherAgentExecutor.init.turn_count = 0 ∧
    (∀ (a : Agent) (st : TeacherState) (conv : List ChatMessage),
      (TeacherAgentExecutor.handle_student_answer a st conv).1.turn_count =
        st.turn_count + 1) ∧
    (∀ (a : Agent) (st : TeacherState) (s : String),
      (TeacherAgentExecutor.handle_start_message a st s).1 = st) := by
  refine ⟨rfl, ?_, fun a st s => rfl⟩
  intro a st conv
  rw [handle_student_answer_state]

/-- Claim C6: the conversation is append-only — every conversation a
handler sends is the conversation it received (for the start handler: the
single user turn it builds from the raw string) extended only by appending
the agent's response messages in order; existing turns are never removed or
reordered. -/
theorem conversation_append_only (a : Agent) (st : TeacherState)
    (conv : List ChatMessage) (s : String) :
    (StudentAgentExecutor.handle_teacher_question a conv).sent =
      [conv ++ a conv] ∧
    ((TeacherAgentExecutor.handle_student_answer a st conv).2.sent = [] ∨
      (TeacherAgentExecutor.handle_student_answer a st conv).2.sent =
        [conv ++ a conv]) ∧
    (TeacherAgentExecutor.handle_start_message a st s).2.sent =
      [[⟨Role.user, s⟩] ++ a [⟨Role.user, s⟩]] := by
  refine ⟨rfl, ?_, rfl⟩
  by_cases h : 5 ≤ st.turn_count + 1
  · exact Or.inl (by simp [TeacherAgentExecutor.handle_student_answer, h])
  · exact Or.inr (by simp [TeacherAgentExecutor.handle_student_answer, h])

/-- Claim C7: for every raw start string, `handle_start_message` sends
exactly one message: the conversation whose first turn is a user-role
`ChatMessage` with text equal to the string, followed by the agent's
response messages, and it emits no event. -/
theorem start_message_sends_one_user_message (a : Agent)
    (st : TeacherState) (s : String) :
    (TeacherAgentExecutor.handle_start_message a st s).2.sent =
      [ChatMessage.mk Role.user s :: a [ChatMessage.mk Role.user s]] ∧
    (TeacherAgentExecutor.handle_start_message a st s).2.events = [] :=
  ⟨rfl, rfl⟩

/-- Claim C8: a builder with no designated start executor fails at build
time with a ConfigurationError (fail-fast, before any run), and the
sample's chain builds successfully only because `set_start_executor` is
called before `build`. -/
theorem build_requires_start_executor :
    (∀ b : WorkflowBuilder, b.startExecutor = none →
      b.build = Except.error ConfigurationError.missingStart) ∧
    sampleWorkflowBuild =
      Except.ok ⟨[("teacher", "student"), ("student", "teacher")],
        "teacher"⟩ := by
  refine ⟨fun b hb => ?_, rfl⟩
  rw [WorkflowBuilder.build, hb]

/-- Witness for C8: the sample's edge set with the start executor left
unset fails to build. -/
theorem build_requires_start_executor_witness :
    WorkflowBuilder.build
        ⟨[("teacher", "student"), ("student", "teacher")], none⟩ =
      Except.error ConfigurationError.missingStart :=
  build_requires_start_executor.1
    ⟨[("teacher", "student"), ("student", "teacher")], none⟩ rfl

/-- Claim C9: the student's `handle_teacher_question` always sends exactly
one message — the received conversation extended with the agent's response
— and never emits any event, so only the teacher node can terminate the
run. -/
theorem student_always_continues (a : Agent) (conv : List ChatMessage) :
    (StudentAgentExecutor.handle_teacher_question a conv).sent =
      [conv ++ a conv] ∧
    (StudentAgentExecutor.handle_teacher_question a conv).events = [] :=
  ⟨rfl, rfl⟩

/-- Claim C10: the handlers are deterministic — two invocations with the
same incoming conversation, the same counter value, and agent calls
returning the same response messages produce identical results (same sent
messages, same events, same resulting state). -/
theorem handlers_deterministic (f g : Agent) (st st' : TeacherState)
    (conv : List ChatMessage) (s : String)
    (hst : st = st') (hconv : f conv = g conv)
    (hs : f [⟨Role.user, s⟩] = g [⟨Role.user, s⟩]) :
    TeacherAgentExecutor.handle_student_answer f st conv =
      TeacherAgentExecutor.handle_student_answer g st' conv ∧
    TeacherAgentExecutor.handle_start_message f st s =
      TeacherAgentExecutor.handle_start_message g st' s := by
  subst hst
  constructor
  · simp only [TeacherAgentExecutor.handle_student_answer, hconv]
  · simp only [TeacherAgentExecutor.handle_start_message, hs]

/-- Witness for C10: two distinct agent definitions that agree on the
concrete inputs yield identical handler results. -/
theorem handlers_deterministic_witness :
    TeacherAgentExecutor.handle_student_answer constQuestion ⟨0⟩ [] =
      TeacherAgentExecutor.handle_student_answer constQuestion2 ⟨0⟩ [] ∧
    TeacherAgentExecutor.handle_start_message constQuestion ⟨0⟩ "hi" =
      TeacherAgentExecutor.handle_start_message constQuestion2 ⟨0⟩ "hi" :=
  handlers_deterministic constQuestion constQuestion2 ⟨0⟩ ⟨0⟩ [] "hi"
    rfl rfl rfl
